import Mathlib

/-!
Verification of the `vsports` API client (`src/vsports/vsports.py`).

The development shallowly embeds the client: JSON values are an inductive
type (numbers are modelled as integers; the claims under study involve no
floating-point payloads), Python's `json.dumps(·, sort_keys=True)` and
`json.loads` are modelled executably, the Redis store is threaded explicitly
as an association list, and the HTTP transport is a parameter (the response
the network would give), with the list of issued requests recorded in the
dispatcher's output.
-/

namespace Vsports

/-- JSON values (Python objects handled by `json.dumps` / `json.loads`).
Python `None` is `Json.null`; object fields keep insertion order, as a
Python `dict` does. -/
inductive Json where
  | null : Json
  | bool : Bool → Json
  | num : Int → Json
  | str : String → Json
  | arr : List Json → Json
  | obj : List (String × Json) → Json
deriving Repr

/-- Python truthiness of a JSON value (`if x:`): `None`, `False`, `0`, `""`,
`[]` and `\x7b\x7d` are falsy, everything else truthy. -/
def Json.truthy : Json → Bool
  | .null => false
  | .bool b => b
  | .num n => n != 0
  | .str s => s != ""
  | .arr xs => !xs.isEmpty
  | .obj fs => !fs.isEmpty

/-- Hex digit for `\uXXXX` escapes. -/
def hexDigit (n : Nat) : Char :=
  if n < 10 then Char.ofNat (48 + n) else Char.ofNat (97 + (n - 10))

/-- Escape of one character inside a JSON string literal, as `json.dumps`
emits it (short escapes for the common control characters, `\u00XX` for the
remaining control characters; non-ASCII characters are left verbatim —
a simplification of `ensure_ascii` that no claim depends on). -/
def escapeChar (c : Char) : String :=
  if c = '"' then "\\\""
  else if c = '\\' then "\\\\"
  else if c = '\n' then "\\n"
  else if c = '\t' then "\\t"
  else if c = '\r' then "\\r"
  else if c = Char.ofNat 8 then "\\b"
  else if c = Char.ofNat 12 then "\\f"
  else if c.toNat < 32 then
    "\\u00" ++ String.singleton (hexDigit (c.toNat / 16))
      ++ String.singleton (hexDigit (c.toNat % 16))
  else String.singleton c

/-- JSON string literal quoting, as `json.dumps` emits it. -/
def quoteStr (s : String) : String :=
  "\"" ++ String.join (s.toList.map escapeChar) ++ "\""

/-- Order on object fields used by `sort_keys=True`: compare keys. -/
def keyLE (a b : String × Json) : Prop := a.1 ≤ b.1

instance : DecidableRel keyLE := fun a b => inferInstanceAs (Decidable (a.1 ≤ b.1))

instance : IsTotal (String × Json) keyLE := ⟨fun a b => le_total a.1 b.1⟩

instance : IsTrans (String × Json) keyLE := ⟨fun _ _ _ h1 h2 => le_trans h1 h2⟩

/-- Sorting of object fields by key, the iteration order `json.dumps` uses
under `sort_keys=True` (a stable sort; Python's `sorted` is also stable). -/
def sortFields (fs : List (String × Json)) : List (String × Json) :=
  List.insertionSort keyLE fs

/-- Python's rendering of an integer. -/
def intStr (n : Int) : String := toString n

/-- `", "`-separated join, the default item separator of `json.dumps`. -/
def joinComma (xs : List String) : String := String.intercalate ", " xs

/-- Model of `json.dumps(x, sort_keys=True)`: object keys are emitted in
sorted order at every nesting level, with the default `", "` and `": "`
separators. -/
def Json.dumps : Json → String
  | .null => "null"
  | .bool b => if b then "true" else "false"
  | .num n => intStr n
  | .str s => quoteStr s
  | .arr xs =>
      "[" ++ joinComma (xs.attach.map (fun x => Json.dumps x.1)) ++ "]"
  | .obj fs =>
      "\x7b" ++ joinComma ((sortFields fs).attach.map
        (fun p => quoteStr p.1.1 ++ ": " ++ Json.dumps p.1.2)) ++ "\x7d"
termination_by j => sizeOf j
decreasing_by
  · have h := List.sizeOf_lt_of_mem x.2
    simp only [Json.arr.sizeOf_spec]
    omega
  · rename_i fs
    have hmem : p.1 ∈ fs := (List.perm_insertionSort keyLE fs).subset p.2
    have h := List.sizeOf_lt_of_mem hmem
    have h2 : sizeOf p.1.2 < sizeOf p.1 := by
      obtain ⟨k, v⟩ := p.1
      simp only [Prod.mk.sizeOf_spec]
      omega
    simp only [Json.obj.sizeOf_spec]
    omega

/-! ### A model of `json.loads`

A fueled recursive-descent reader of JSON text. Numbers are read as
integers (the claims involve no floating-point payloads); inputs it cannot
read are rejected, modelling `json.JSONDecodeError`. -/

/-- The opening brace character. -/
def lbrace : Char := Char.ofNat 123

/-- The closing brace character. -/
def rbrace : Char := Char.ofNat 125

/-- Skip JSON whitespace. -/
def skipWs : List Char → List Char
  | c :: cs => if c = ' ' ∨ c = '\n' ∨ c = '\t' ∨ c = '\r' then skipWs cs else c :: cs
  | [] => []

/-- Read the hex value of a character, if it is a hex digit. -/
def hexVal (c : Char) : Option Nat :=
  if '0' ≤ c ∧ c ≤ '9' then some (c.toNat - 48)
  else if 'a' ≤ c ∧ c ≤ 'f' then some (c.toNat - 87)
  else if 'A' ≤ c ∧ c ≤ 'F' then some (c.toNat - 55)
  else none

/-- Decode a one-character JSON escape (the part after the backslash),
for the short escapes. -/
def escDecode (e : Char) : Option Char :=
  if e = '"' then some '"'
  else if e = '\\' then some '\\'
  else if e = '/' then some '/'
  else if e = 'b' then some (Char.ofNat 8)
  else if e = 'f' then some (Char.ofNat 12)
  else if e = 'n' then some '\n'
  else if e = 'r' then some '\r'
  else if e = 't' then some '\t'
  else none

/-- Read the body of a JSON string literal (after the opening quote),
returning the decoded characters and the rest of the input. -/
def readStr : List Char → Option (List Char × List Char)
  | [] => none
  | c :: cs =>
    if c = '"' then some ([], cs)
    else if c = '\\' then
      match cs with
      | [] => none
      | 'u' :: d1 :: d2 :: d3 :: d4 :: cs3 =>
        (match hexVal d1, hexVal d2, hexVal d3, hexVal d4 with
         | some h1, some h2, some h3, some h4 =>
           (readStr cs3).map
             (fun r => (Char.ofNat (((h1 * 16 + h2) * 16 + h3) * 16 + h4) :: r.1, r.2))
         | _, _, _, _ => none)
      | e :: cs2 =>
        (match escDecode e with
         | some d => (readStr cs2).map (fun r => (d :: r.1, r.2))
         | none => none)
    else (readStr cs).map (fun r => (c :: r.1, r.2))
termination_by cs => cs.length
decreasing_by
  all_goals simp_wf
  all_goals omega

/-- Read a run of decimal digits as a natural number (accumulator form). -/
def readDigits : List Char → Nat → Option (Nat × List Char)
  | c :: cs, acc =>
    if '0' ≤ c ∧ c ≤ '9' then
      match readDigits cs (acc * 10 + (c.toNat - 48)) with
      | some r => some r
      | none => some (acc * 10 + (c.toNat - 48), cs)
    else
      none
  | [], _ => none

/-- Read an integer (optional minus sign followed by digits). -/
def readInt : List Char → Option (Int × List Char)
  | '-' :: cs =>
    match readDigits cs 0 with
    | some (n, rest) => some (-(n : Int), rest)
    | none => none
  | cs =>
    match readDigits cs 0 with
    | some (n, rest) => some ((n : Int), rest)
    | none => none

mutual

/-- Read one JSON value; `fuel` bounds the recursion depth. -/
def readVal : Nat → List Char → Option (Json × List Char)
  | 0, _ => none
  | fuel + 1, input =>
    match skipWs input with
    | 'n' :: 'u' :: 'l' :: 'l' :: rest => some (.null, rest)
    | 't' :: 'r' :: 'u' :: 'e' :: rest => some (.bool true, rest)
    | 'f' :: 'a' :: 'l' :: 's' :: 'e' :: rest => some (.bool false, rest)
    | '"' :: rest =>
      match readStr rest with
      | some (cs, rest2) => some (.str (String.mk cs), rest2)
      | none => none
    | '[' :: rest =>
      (match skipWs rest with
       | ']' :: rest2 => some (.arr [], rest2)
       | other => readElems fuel other [])
    | c :: rest =>
      if c = lbrace then
        (match skipWs rest with
         | other =>
           if other.head? = some rbrace then some (.obj [], other.tail)
           else readMembers fuel other [])
      else if c = '-' ∨ ('0' ≤ c ∧ c ≤ '9') then
        match readInt (c :: rest) with
        | some (n, rest2) => some (.num n, rest2)
        | none => none
      else none
    | [] => none

/-- Read the elements of a non-empty JSON array, accumulating in reverse. -/
def readElems : Nat → List Char → List Json → Option (Json × List Char)
  | 0, _, _ => none
  | fuel + 1, input, acc =>
    match readVal fuel input with
    | some (v, rest) =>
      (match skipWs rest with
       | ',' :: rest2 => readElems fuel rest2 (v :: acc)
       | ']' :: rest2 => some (.arr (v :: acc).reverse, rest2)
       | _ => none)
    | none => none

/-- Read the members of a non-empty JSON object, accumulating in reverse. -/
def readMembers : Nat → List Char → List (String × Json) → Option (Json × List Char)
  | 0, _, _ => none
  | fuel + 1, input, acc =>
    match skipWs input with
    | '"' :: rest =>
      (match readStr rest with
       | some (kcs, rest2) =>
         (match skipWs rest2 with
          | ':' :: rest3 =>
            (match readVal fuel rest3 with
             | some (v, rest4) =>
               (match skipWs rest4 with
                | ',' :: rest5 => readMembers fuel rest5 ((String.mk kcs, v) :: acc)
                | other =>
                  if other.head? = some rbrace then
                    some (.obj ((String.mk kcs, v) :: acc).reverse, other.tail)
                  else none)
             | none => none)
          | _ => none)
       | none => none)
    | _ => none

end

/-- Model of `json.loads`: read one value, allow trailing whitespace only.
The fuel exceeds the input length, hence any realisable nesting depth. -/
def loads (s : String) : Option Json :=
  let cs := s.toList
  match readVal (cs.length + 2) cs with
  | some (j, rest) => if skipWs rest = [] then some j else none
  | none => none

/-! ### The client (`class VsportsAPI`)

State that Python mutates or that lives outside the process is threaded
explicitly: the Redis database is a `Store` given to and returned by the
dispatcher, the HTTP transport is modelled by the `HttpResponse` the network
would give, and the requests actually issued are collected in the output. -/

/-- Python exceptions the embedded code can raise. -/
inductive PyError where
  | connectionError : PyError
  | httpError : Nat → PyError
  | jsonDecodeError : PyError
deriving Repr, DecidableEq

/-- The connection parameters a `redis.Redis(...)` client is created with. -/
structure RedisConn where
  host : Json
  port : Json
  db : Json
deriving Repr

/-- The attributes `VsportsAPI.__init__` sets on `self`. `redis_ttl` is
`none` when the attribute was never assigned (it is assigned exactly when
`redis_client` is, so reachable clients pair them). -/
structure Client where
  api_key : String
  base_url : String
  timeout : Nat
  headers : List (String × String)
  redis_client : Option RedisConn
  redis_ttl : Option Json
deriving Repr

/-- The Redis database: key, then the `SETEX` expiry argument and the stored
text. Expiry is not simulated; "an entry is present" models "an unexpired
entry is present". -/
abbrev Store := List (String × Json × String)

/-- `redis_client.get(key)` on the database contents. -/
def storeGet (store : Store) (key : String) : Option (Json × String) :=
  (store.find? (fun e => e.1 == key)).map (fun e => e.2)

/-- `redis_client.setex(key, ttl, text)`: overwrite or insert. -/
def storeSet (store : Store) (key : String) (ttl : Json) (text : String) : Store :=
  match store with
  | [] => [(key, ttl, text)]
  | e :: rest =>
      if e.1 == key then (key, ttl, text) :: rest
      else e :: storeSet rest key ttl text

/-- Python `dict.get(k, default)` on a dictionary modelled as an
association list. -/
def dictGet (d : List (String × Json)) (k : String) (dflt : Json) : Json :=
  match d.find? (fun p => p.1 == k) with
  | some p => p.2
  | none => dflt

/-- The response the network would give: status code and parsed JSON body
(`response.json()` is modelled as already parsed). -/
structure HttpResponse where
  status : Nat
  body : Json
deriving Repr

/-- One HTTP request as `requests.request` is invoked by `_request`. -/
structure HttpRequest where
  method : String
  url : String
  headers : List (String × String)
  params : Option (List (String × Json))
  timeout : Nat
deriving Repr

/-- Output of one dispatch: the returned value or raised exception, the
client afterwards (Python could have mutated `self`), the Redis database
afterwards, and the HTTP requests issued during the call. -/
structure ReqOut where
  result : Except PyError Json
  client : Client
  store : Store
  calls : List HttpRequest
deriving Repr

namespace VsportsAPI

/-- `VsportsAPI.__init__`. `redis_config` is the optional dictionary
argument; `pingOk` is an environment oracle saying whether
`self.redis_client.ping()` would succeed against the configured host (the
ping only actually runs when the truthiness test `if redis_config:` passes,
i.e. when the dictionary is present and non-empty). -/
def init (api_key : String) (base_url : String := "https://extended.vsports.pt/api")
    (timeout : Nat := 10) (redis_config : Option (List (String × Json)) := none)
    (pingOk : Bool := true) : Except PyError Client :=
  let headers := [("Authorization", "Bearer " ++ api_key)]
  match redis_config with
  | some (kv :: rest) =>
      let cfg := kv :: rest
      let conn : RedisConn :=
        { host := dictGet cfg "host" (.str "localhost")
          port := dictGet cfg "port" (.num 6379)
          db := dictGet cfg "db" (.num 0) }
      if pingOk then
        .ok { api_key := api_key, base_url := base_url, timeout := timeout,
              headers := headers, redis_client := some conn,
              redis_ttl := some (dictGet cfg "ttl" (.num 300)) }
      else .error .connectionError
  | _ =>
      .ok { api_key := api_key, base_url := base_url, timeout := timeout,
            headers := headers, redis_client := none, redis_ttl := none }

/-- The cache key computed in `_request`:
`f"vsports:\x7bendpoint\x7d:\x7bjson.dumps(params, sort_keys=True)\x7d"`.
`params` is `None` or a dictionary; `json.dumps(None, sort_keys=True)` is
`"null"`. -/
def cache_key (endpoint : String) (params : Option (List (String × Json))) : String :=
  "vsports:" ++ endpoint ++ ":" ++
    (match params with
     | none => "null"
     | some d => Json.dumps (.obj d))

/-- `VsportsAPI._get_cache`: when a Redis client exists, `GET key`; a
present, non-empty (bytes truthiness) value is passed to `json.loads`,
whose failure raises; otherwise the method returns `None`. -/
def get_cache (c : Client) (store : Store) (key : String) : Except PyError Json :=
  match c.redis_client with
  | none => .ok .null
  | some _ =>
      match storeGet store key with
      | none => .ok .null
      | some (_, raw) =>
          if raw = "" then .ok .null
          else
            match loads raw with
            | some j => .ok j
            | none => .error .jsonDecodeError

/-- `VsportsAPI._set_cache`: when a Redis client exists,
`SETEX key self.redis_ttl json.dumps(value)`. The constructor sets
`redis_ttl` whenever it sets `redis_client`, so the paired match reads the
same attribute the Python code does. -/
def set_cache (c : Client) (store : Store) (key : String) (value : Json) : Store :=
  match c.redis_client, c.redis_ttl with
  | some _, some ttl => storeSet store key ttl (Json.dumps value)
  | _, _ => store

/-- The network half of `_request`, from `url = ...` on: issue the request,
then on status 200 parse, optionally cache, and return, otherwise
`response.raise_for_status()` (which raises exactly for statuses 400–599)
followed by Python's implicit `return None`. -/
def httpPhase (c : Client) (endpoint : String) (method : String)
    (params : Option (List (String × Json))) (usecache : Bool)
    (store : Store) (resp : HttpResponse) : ReqOut :=
  let url := c.base_url ++ "/" ++ endpoint
  let request : HttpRequest :=
    { method := method, url := url, headers := c.headers,
      params := params, timeout := c.timeout }
  if resp.status = 200 then
    let data := resp.body
    let store2 :=
      if usecache && c.redis_client.isSome then
        set_cache c store (cache_key endpoint params) data
      else store
    { result := .ok data, client := c, store := store2, calls := [request] }
  else if 400 ≤ resp.status ∧ resp.status < 600 then
    { result := .error (.httpError resp.status), client := c, store := store,
      calls := [request] }
  else
    { result := .ok .null, client := c, store := store, calls := [request] }

/-- `VsportsAPI._request`. `kwargs_usecache` is the value bound to the
`usecache` keyword, `none` when the keyword is omitted (so that
`kwargs.get("usecache", False)` yields `False`); a non-boolean value is
replaced by `False` by the `isinstance` guard. -/
def req (c : Client) (endpoint : String) (method : String := "GET")
    (params : Option (List (String × Json)) := none)
    (kwargs_usecache : Option Json := none)
    (store : Store) (resp : HttpResponse) : ReqOut :=
  let usecache0 := kwargs_usecache.getD (.bool false)
  let usecache := match usecache0 with
    | .bool b => b
    | _ => false
  if usecache && c.redis_client.isSome then
    match get_cache c store (cache_key endpoint params) with
    | .error e => { result := .error e, client := c, store := store, calls := [] }
    | .ok cached =>
        if cached.truthy then
          { result := .ok cached, client := c, store := store, calls := [] }
        else httpPhase c endpoint method params usecache store resp
  else httpPhase c endpoint method params usecache store resp

/-- `VsportsAPI.events_by_date`: default the end date to the start date when
the former is falsy, assemble the parameter dictionary omitting entries
whose value `is None`, and forward to `_request("events", ...)`. `page` and
`page_size` are `none` when the arguments are absent (`None`). -/
def events_by_date (c : Client) (start_date : String)
    (end_date : Option String := none) (page : Option Json := none)
    (page_size : Option Json := none) (kwargs_usecache : Option Json := none)
    (store : Store) (resp : HttpResponse) : ReqOut :=
  let ed := match end_date with
    | none => start_date
    | some s => if s = "" then start_date else s
  let params :=
    ([("start_date", some (.str start_date)), ("end_date", some (.str ed)),
      ("page", page), ("page_size", page_size)]
      : List (String × Option Json)).filterMap
      (fun p => p.2.map (fun v => (p.1, v)))
  req c "events" "GET" (some params) kwargs_usecache store resp

end VsportsAPI

/-! ### Sample configurations used as concrete inputs -/

/-- A Redis connection built from an all-default configuration. -/
def sampleConn : RedisConn :=
  { host := .str "localhost", port := .num 6379, db := .num 0 }

/-- A client with a live cache connection and the default TTL. -/
def sampleClient : Client :=
  { api_key := "k", base_url := "https://extended.vsports.pt/api",
    timeout := 10, headers := [("Authorization", "Bearer k")],
    redis_client := some sampleConn, redis_ttl := some (.num 300) }

/-- A client constructed without a cache configuration. -/
def plainClient : Client :=
  { api_key := "k", base_url := "https://extended.vsports.pt/api",
    timeout := 10, headers := [("Authorization", "Bearer k")],
    redis_client := none, redis_ttl := none }

/-! ### Helper lemmas on sorted object fields -/

/-- Strict version of `keyLE`. -/
def keyLT (a b : String × Json) : Prop := a.1 < b.1

instance : IsAntisymm (String × Json) keyLT :=
  ⟨fun _ _ h1 h2 => absurd h2 (lt_asymm h1)⟩

/-- A `keyLE`-sorted field list with no duplicate keys is strictly sorted. -/
theorem sorted_keyLT_of_sorted_nodup {l : List (String × Json)}
    (hs : List.Sorted keyLE l) (hnd : (l.map Prod.fst).Nodup) :
    List.Sorted keyLT l := by
  have hne : l.Pairwise (fun a b : String × Json => a.1 ≠ b.1) :=
    List.pairwise_map.mp hnd
  exact (hs.and hne).imp (fun h => lt_of_le_of_ne h.1 h.2)

/-- Two field lists that are permutations of each other, with no duplicate
keys, sort to the same list. -/
theorem sortFields_eq_of_perm {P1 P2 : List (String × Json)}
    (hperm : P1.Perm P2) (hnd : (P1.map Prod.fst).Nodup) :
    sortFields P1 = sortFields P2 := by
  have hp : (sortFields P1).Perm (sortFields P2) :=
    (List.perm_insertionSort keyLE P1).trans
      (hperm.trans (List.perm_insertionSort keyLE P2).symm)
  have hnd1 : ((sortFields P1).map Prod.fst).Nodup :=
    ((List.perm_insertionSort keyLE P1).map Prod.fst).nodup_iff.mpr hnd
  have hnd2 : ((sortFields P2).map Prod.fst).Nodup :=
    ((List.perm_insertionSort keyLE P2).map Prod.fst).nodup_iff.mpr
      ((hperm.map Prod.fst).nodup_iff.mp hnd)
  exact List.eq_of_perm_of_sorted hp
    (sorted_keyLT_of_sorted_nodup (List.sorted_insertionSort keyLE P1) hnd1)
    (sorted_keyLT_of_sorted_nodup (List.sorted_insertionSort keyLE P2) hnd2)

/-! ### Claims -/

/-- C1: the cache key computed by the dispatcher equals
`"vsports:" ++ endpoint ++ ":" ++` the sorted-key JSON serialization of the
parameter mapping, and two parameter mappings equal as sets of key-value
pairs but differing in insertion order yield the same key. -/
theorem C1_cache_key_canonical (endpoint : String)
    (P1 P2 : List (String × Json))
    (hnd : (P1.map Prod.fst).Nodup) (hperm : P1.Perm P2) :
    VsportsAPI.cache_key endpoint (some P1)
        = "vsports:" ++ endpoint ++ ":" ++ Json.dumps (.obj P1)
      ∧ VsportsAPI.cache_key endpoint (some P1)
        = VsportsAPI.cache_key endpoint (some P2) := by
  refine ⟨rfl, ?_⟩
  have h := sortFields_eq_of_perm hperm hnd
  have hd : Json.dumps (.obj P1) = Json.dumps (.obj P2) := by
    rw [Json.dumps, Json.dumps, h]
  simp only [VsportsAPI.cache_key, hd]

/-- Witness for C1 at `endpoint = "events"`,
`P1 = [(b, "2"), (a, "1")]`, `P2 = [(a, "1"), (b, "2")]`. -/
theorem C1_cache_key_canonical_witness :
    VsportsAPI.cache_key "events" (some [("b", Json.str "2"), ("a", Json.str "1")])
        = "vsports:" ++ "events" ++ ":"
          ++ Json.dumps (.obj [("b", Json.str "2"), ("a", Json.str "1")])
      ∧ VsportsAPI.cache_key "events" (some [("b", Json.str "2"), ("a", Json.str "1")])
        = VsportsAPI.cache_key "events" (some [("a", Json.str "1"), ("b", Json.str "2")]) :=
  C1_cache_key_canonical "events" _ _ (by decide) (List.Perm.swap _ _ _)

/-- C2 counterexample: with the cache-use flag true, a live cache
connection, and an entry `"[]"` present under the computed key, the
dispatcher does NOT return the deserialized cached value (the empty array)
and DOES perform a network call — the claim as stated fails on falsy
entries. -/
theorem C2_counterexample :
    VsportsAPI.req sampleClient "events" "GET" none (some (.bool true))
        [("vsports:events:null", Json.num 300, "[]")] ⟨204, .null⟩
      = { result := .ok .null, client := sampleClient,
          store := [("vsports:events:null", Json.num 300, "[]")],
          calls := [{ method := "GET",
                      url := "https://extended.vsports.pt/api/events",
                      headers := [("Authorization", "Bearer k")],
                      params := none, timeout := 10 }] } := rfl

/-- C2 (amended): with the cache-use flag true, a live cache connection,
and an entry under the computed key whose stored text deserializes to a
TRUTHY JSON value, the dispatcher returns the deserialized cached value and
performs no network call. -/
theorem C2_cached_hit_no_network (c : Client) (endpoint method : String)
    (params : Option (List (String × Json))) (store : Store)
    (resp : HttpResponse) (ttl : Json) (raw : String) (j : Json)
    (hredis : c.redis_client.isSome = true)
    (hstore : storeGet store (VsportsAPI.cache_key endpoint params)
        = some (ttl, raw))
    (hloads : loads raw = some j) (htruthy : j.truthy = true) :
    VsportsAPI.req c endpoint method params (some (.bool true)) store resp
      = { result := .ok j, client := c, store := store, calls := [] } := by
  obtain ⟨conn, hc⟩ := Option.isSome_iff_exists.mp hredis
  have hraw : ¬raw = "" := by
    intro h
    rw [h] at hloads
    have h0 : loads "" = none := rfl
    rw [h0] at hloads
    exact Option.noConfusion hloads
  simp only [VsportsAPI.req, VsportsAPI.get_cache, Option.getD, hc, hstore,
    Option.isSome_some, Bool.and_true, if_true, hloads, if_neg hraw, htruthy,
    if_pos]

/-- Witness for the amended C2: a concrete hit on entry `"[1]"`. -/
theorem C2_cached_hit_no_network_witness :
    sampleClient.redis_client.isSome = true
    ∧ storeGet [("vsports:events:null", Json.num 300, "[1]")]
        (VsportsAPI.cache_key "events" none) = some (Json.num 300, "[1]")
    ∧ loads "[1]" = some (.arr [.num 1])
    ∧ (Json.arr [.num 1]).truthy = true
    ∧ VsportsAPI.req sampleClient "events" "GET" none (some (.bool true))
        [("vsports:events:null", Json.num 300, "[1]")] ⟨200, .str "fresh"⟩
      = { result := .ok (.arr [.num 1]), client := sampleClient,
          store := [("vsports:events:null", Json.num 300, "[1]")], calls := [] } :=
  ⟨rfl, rfl, rfl, rfl,
    C2_cached_hit_no_network sampleClient "events" "GET" none _ _
      (Json.num 300) "[1]" (.arr [.num 1]) rfl rfl rfl rfl⟩

/-- C3: an entry whose stored text deserializes to a falsy JSON value is
treated as a cache miss — the dispatcher proceeds exactly as the network
path (`httpPhase`) does, issuing the HTTP request. -/
theorem C3_falsy_entry_is_miss (c : Client) (endpoint method : String)
    (params : Option (List (String × Json))) (store : Store)
    (resp : HttpResponse) (ttl : Json) (raw : String) (j : Json)
    (hredis : c.redis_client.isSome = true)
    (hstore : storeGet store (VsportsAPI.cache_key endpoint params)
        = some (ttl, raw))
    (hloads : loads raw = some j) (hfalsy : j.truthy = false) :
    VsportsAPI.req c endpoint method params (some (.bool true)) store resp
      = VsportsAPI.httpPhase c endpoint method params true store resp := by
  obtain ⟨conn, hc⟩ := Option.isSome_iff_exists.mp hredis
  have hraw : ¬raw = "" := by
    intro h
    rw [h] at hloads
    have h0 : loads "" = none := rfl
    rw [h0] at hloads
    exact Option.noConfusion hloads
  simp only [VsportsAPI.req, VsportsAPI.get_cache, Option.getD, hc, hstore,
    Option.isSome_some, Bool.and_true, if_true, hloads, if_neg hraw, hfalsy]
  rfl

/-- Witness for C3: a concrete falsy entry `"null"` leads to the network
path (which issues exactly one HTTP request). -/
theorem C3_falsy_entry_is_miss_witness :
    sampleClient.redis_client.isSome = true
    ∧ storeGet [("vsports:events:null", Json.num 300, "null")]
        (VsportsAPI.cache_key "events" none) = some (Json.num 300, "null")
    ∧ loads "null" = some .null
    ∧ Json.null.truthy = false
    ∧ VsportsAPI.req sampleClient "events" "GET" none (some (.bool true))
        [("vsports:events:null", Json.num 300, "null")] ⟨404, .null⟩
      = VsportsAPI.httpPhase sampleClient "events" "GET" none true
          [("vsports:events:null", Json.num 300, "null")] ⟨404, .null⟩ :=
  ⟨rfl, rfl, rfl, rfl,
    C3_falsy_entry_is_miss sampleClient "events" "GET" none _ _
      (Json.num 300) "null" .null rfl rfl rfl rfl⟩

/-- C4 counterexample: with the cache-use flag true, a live cache
connection, and a stored value `"oops"` that fails to deserialize, the call
DOES crash (`json.JSONDecodeError` propagates out of `_get_cache`) and NO
network request is issued — the claim's "treated as a miss, falling through
to the network path" fails on the code. -/
theorem C4_counterexample :
    VsportsAPI.req sampleClient "events" "GET" none (some (.bool true))
        [("vsports:events:null", Json.num 300, "oops")] ⟨200, .arr []⟩
      = { result := .error .jsonDecodeError, client := sampleClient,
          store := [("vsports:events:null", Json.num 300, "oops")],
          calls := [] } := rfl

/-- C4 (amended): a stored cache value that fails to deserialize makes the
dispatcher raise the deserialization error to the caller; no network
request is issued and no corrupt data is returned. -/
theorem C4_deserialization_error_propagates (c : Client)
    (endpoint method : String) (params : Option (List (String × Json)))
    (store : Store) (resp : HttpResponse) (ttl : Json) (raw : String)
    (hredis : c.redis_client.isSome = true)
    (hstore : storeGet store (VsportsAPI.cache_key endpoint params)
        = some (ttl, raw))
    (hraw : ¬raw = "") (hloads : loads raw = none) :
    VsportsAPI.req c endpoint method params (some (.bool true)) store resp
      = { result := .error .jsonDecodeError, client := c, store := store,
          calls := [] } := by
  obtain ⟨conn, hc⟩ := Option.isSome_iff_exists.mp hredis
  simp only [VsportsAPI.req, VsportsAPI.get_cache, Option.getD, hc, hstore,
    Option.isSome_some, Bool.and_true, if_true, hloads, if_neg hraw]

/-- Witness for the amended C4 at the stored value `"oops"`. -/
theorem C4_deserialization_error_propagates_witness :
    sampleClient.redis_client.isSome = true
    ∧ storeGet [("vsports:events:null", Json.num 300, "oops")]
        (VsportsAPI.cache_key "events" none) = some (Json.num 300, "oops")
    ∧ ¬("oops" : String) = ""
    ∧ loads "oops" = none
    ∧ VsportsAPI.req sampleClient "events" "GET" none (some (.bool true))
        [("vsports:events:null", Json.num 300, "oops")] ⟨200, .arr []⟩
      = { result := .error .jsonDecodeError, client := sampleClient,
          store := [("vsports:events:null", Json.num 300, "oops")],
          calls := [] } :=
  ⟨rfl, rfl, by decide, rfl,
    C4_deserialization_error_propagates sampleClient "events" "GET" none _ _
      (Json.num 300) "oops" rfl rfl (by decide) rfl⟩

/-- C5 counterexample: at status 204 (not 200, but below 400),
`raise_for_status()` raises nothing and the dispatcher returns `None` — no
HTTP error carrying the status code is raised, refuting the claim for
"any status code other than 200". -/
theorem C5_counterexample :
    VsportsAPI.req plainClient "events" "GET" none none [] ⟨204, .null⟩
      = { result := .ok .null, client := plainClient, store := [],
          calls := [{ method := "GET",
                      url := "https://extended.vsports.pt/api/events",
                      headers := [("Authorization", "Bearer k")],
                      params := none, timeout := 10 }] } := rfl

/-- C5 (amended): on a dispatch that reaches the network (here: no entry
under the computed key), exactly one HTTP request is issued (never a
retry); a status in 400–599 raises an HTTP error exposing the status code
and returns no value, while any other non-200 status raises nothing and
the dispatcher returns `None`. -/
theorem C5_non200_behaviour (c : Client) (endpoint method : String)
    (params : Option (List (String × Json))) (kw : Option Json)
    (store : Store) (resp : HttpResponse)
    (hmiss : storeGet store (VsportsAPI.cache_key endpoint params) = none)
    (hst : resp.status ≠ 200) :
    (VsportsAPI.req c endpoint method params kw store resp).calls
        = [{ method := method, url := c.base_url ++ "/" ++ endpoint,
             headers := c.headers, params := params, timeout := c.timeout }]
    ∧ (400 ≤ resp.status ∧ resp.status < 600 →
        (VsportsAPI.req c endpoint method params kw store resp).result
          = .error (.httpError resp.status))
    ∧ (¬(400 ≤ resp.status ∧ resp.status < 600) →
        (VsportsAPI.req c endpoint method params kw store resp).result
          = .ok .null) := by
  have hphase : ∀ u : Bool,
      VsportsAPI.httpPhase c endpoint method params u store resp
        = { result := if 400 ≤ resp.status ∧ resp.status < 600 then
                        .error (.httpError resp.status)
                      else .ok .null,
            client := c, store := store,
            calls := [{ method := method,
                        url := c.base_url ++ "/" ++ endpoint,
                        headers := c.headers, params := params,
                        timeout := c.timeout }] } := by
    intro u
    simp only [VsportsAPI.httpPhase, if_neg hst]
    split <;> rfl
  have hreq : ∃ u : Bool,
      VsportsAPI.req c endpoint method params kw store resp
        = VsportsAPI.httpPhase c endpoint method params u store resp := by
    simp only [VsportsAPI.req]
    split
    · case _ h =>
        simp only [VsportsAPI.get_cache]
        cases hc : c.redis_client with
        | none => exact ⟨_, rfl⟩
        | some conn =>
            rw [hmiss]
            exact ⟨_, rfl⟩
    · exact ⟨_, rfl⟩
  obtain ⟨u, hu⟩ := hreq
  rw [hu, hphase u]
  refine ⟨rfl, ?_, ?_⟩
  · intro h
    simp only [if_pos h]
  · intro h
    simp only [if_neg h]

/-- Witness for the amended C5 at a concrete 404 response. -/
theorem C5_non200_behaviour_witness :
    storeGet [] (VsportsAPI.cache_key "events" none) = none
    ∧ (404 : Nat) ≠ 200
    ∧ ((VsportsAPI.req plainClient "events" "GET" none none [] ⟨404, .null⟩).calls
        = [{ method := "GET", url := "https://extended.vsports.pt/api" ++ "/" ++ "events",
             headers := [("Authorization", "Bearer k")], params := none, timeout := 10 }]
      ∧ (400 ≤ 404 ∧ 404 < 600 →
          (VsportsAPI.req plainClient "events" "GET" none none [] ⟨404, .null⟩).result
            = .error (.httpError 404))
      ∧ (¬(400 ≤ 404 ∧ 404 < 600) →
          (VsportsAPI.req plainClient "events" "GET" none none [] ⟨404, .null⟩).result
            = .ok .null)) :=
  ⟨rfl, by decide,
    C5_non200_behaviour plainClient "events" "GET" none none [] ⟨404, .null⟩
      rfl (by decide)⟩

/-- C6 counterexample: the empty dictionary is a supplied cache
configuration, yet `if redis_config:` is false for it, so no connection is
created and no liveness ping runs — construction succeeds (caching silently
disabled) even though the ping would have failed. -/
theorem C6_counterexample :
    VsportsAPI.init "k" "https://extended.vsports.pt/api" 10 (some []) false
      = .ok { api_key := "k", base_url := "https://extended.vsports.pt/api",
              timeout := 10, headers := [("Authorization", "Bearer k")],
              redis_client := none, redis_ttl := none } := rfl

/-- C6 (amended): for every construction with a NON-EMPTY cache
configuration supplied, the client eagerly creates the connection and pings
it during construction: if the ping fails, construction fails with the
connection error (caching is never silently disabled); if it succeeds, the
constructed client holds a live cache connection. -/
theorem C6_eager_cache_connection (api_key base_url : String) (timeout : Nat)
    (kv : String × Json) (rest : List (String × Json)) :
    VsportsAPI.init api_key base_url timeout (some (kv :: rest)) false
        = .error .connectionError
    ∧ VsportsAPI.init api_key base_url timeout (some (kv :: rest)) true
        = .ok { api_key := api_key, base_url := base_url, timeout := timeout,
                headers := [("Authorization", "Bearer " ++ api_key)],
                redis_client := some
                  { host := dictGet (kv :: rest) "host" (.str "localhost"),
                    port := dictGet (kv :: rest) "port" (.num 6379),
                    db := dictGet (kv :: rest) "db" (.num 0) },
                redis_ttl := some (dictGet (kv :: rest) "ttl" (.num 300)) } :=
  ⟨rfl, rfl⟩

/-- C7: on a dispatch with the cache-use flag true, a live cache connection,
a cache miss, and a 200 response, the parsed body is stored under the
computed key with the client's configured TTL — the `self.redis_ttl` the
constructor read as `redis_config.get("ttl", 300)`, for EVERY non-empty
configuration — and is returned to the caller; and that configured TTL is
300 whenever the configuration carries no "ttl" entry. -/
theorem C7_store_on_200 (api_key base_url : String) (timeout : Nat)
    (kv : String × Json) (rest : List (String × Json)) (c : Client)
    (hinit : VsportsAPI.init api_key base_url timeout (some (kv :: rest)) true
        = .ok c)
    (endpoint method : String) (params : Option (List (String × Json)))
    (store : Store) (resp : HttpResponse) (v : Json)
    (hcache : VsportsAPI.get_cache c store (VsportsAPI.cache_key endpoint params)
        = .ok v)
    (hfalsy : v.truthy = false) (hstatus : resp.status = 200) :
    VsportsAPI.req c endpoint method params (some (.bool true)) store resp
      = { result := .ok resp.body, client := c,
          store := storeSet store (VsportsAPI.cache_key endpoint params)
            (dictGet (kv :: rest) "ttl" (.num 300)) (Json.dumps resp.body),
          calls := [{ method := method, url := base_url ++ "/" ++ endpoint,
                      headers := [("Authorization", "Bearer " ++ api_key)],
                      params := params, timeout := timeout }] }
    ∧ ((kv :: rest).find? (fun p => p.1 == "ttl") = none →
        dictGet (kv :: rest) "ttl" (.num 300) = .num 300) := by
  have hc : c = { api_key := api_key, base_url := base_url, timeout := timeout,
                  headers := [("Authorization", "Bearer " ++ api_key)],
                  redis_client := some
                    { host := dictGet (kv :: rest) "host" (.str "localhost"),
                      port := dictGet (kv :: rest) "port" (.num 6379),
                      db := dictGet (kv :: rest) "db" (.num 0) },
                  redis_ttl := some (dictGet (kv :: rest) "ttl" (.num 300)) } := by
    have h := hinit
    simp only [VsportsAPI.init, if_pos] at h
    exact (Except.ok.inj h).symm
  subst hc
  refine ⟨?_, fun httl => by simp only [dictGet, httl]⟩
  simp only [VsportsAPI.req, Option.getD, Option.isSome_some, Bool.and_true,
    if_true, hcache, hfalsy, VsportsAPI.httpPhase, hstatus, if_pos,
    VsportsAPI.set_cache]
  rfl

/-- Witness for C7: a fresh store, a configuration that OVERRIDES the TTL
to 60, and a 200 response carrying `[1]`: the entry is stored with the
configured TTL 60 (`dictGet [("ttl", 60)] "ttl" 300` reduces to 60), not
with the default 300. -/
theorem C7_store_on_200_witness :
    VsportsAPI.init "k" "https://extended.vsports.pt/api" 10
        (some [("ttl", Json.num 60)]) true
      = .ok { api_key := "k", base_url := "https://extended.vsports.pt/api",
              timeout := 10, headers := [("Authorization", "Bearer k")],
              redis_client := some
                { host := .str "localhost", port := .num 6379, db := .num 0 },
              redis_ttl := some (.num 60) }
    ∧ VsportsAPI.get_cache
        { api_key := "k", base_url := "https://extended.vsports.pt/api",
          timeout := 10, headers := [("Authorization", "Bearer k")],
          redis_client := some
            { host := .str "localhost", port := .num 6379, db := .num 0 },
          redis_ttl := some (.num 60) } []
        (VsportsAPI.cache_key "events" none) = .ok .null
    ∧ Json.null.truthy = false
    ∧ dictGet [("ttl", Json.num 60)] "ttl" (.num 300) = .num 60
    ∧ (VsportsAPI.req
        { api_key := "k", base_url := "https://extended.vsports.pt/api",
          timeout := 10, headers := [("Authorization", "Bearer k")],
          redis_client := some
            { host := .str "localhost", port := .num 6379, db := .num 0 },
          redis_ttl := some (.num 60) }
        "events" "GET" none (some (.bool true)) [] ⟨200, .arr [.num 1]⟩
      = { result := .ok (.arr [.num 1]),
          client := { api_key := "k", base_url := "https://extended.vsports.pt/api",
                      timeout := 10, headers := [("Authorization", "Bearer k")],
                      redis_client := some
                        { host := .str "localhost", port := .num 6379, db := .num 0 },
                      redis_ttl := some (.num 60) },
          store := storeSet [] (VsportsAPI.cache_key "events" none)
            (.num 60) (Json.dumps (.arr [.num 1])),
          calls := [{ method := "GET",
                      url := "https://extended.vsports.pt/api" ++ "/" ++ "events",
                      headers := [("Authorization", "Bearer k")],
                      params := none, timeout := 10 }] }
      ∧ ([("ttl", Json.num 60)].find? (fun p => p.1 == "ttl") = none →
          dictGet [("ttl", Json.num 60)] "ttl" (.num 300) = .num 300)) :=
  ⟨rfl, rfl, rfl, rfl,
    C7_store_on_200 "k" "https://extended.vsports.pt/api" 10
      ("ttl", Json.num 60) [] _ rfl "events" "GET" none []
      ⟨200, .arr [.num 1]⟩ .null rfl rfl rfl⟩

/-- C8: `events_by_date` with no end date dispatches to endpoint "events"
with a parameter mapping whose `start_date` and `end_date` both equal the
given start date, and which omits the `page` and `page_size` keys when
those arguments are absent. -/
theorem C8_events_by_date_defaults (c : Client) (start_date : String)
    (kw : Option Json) (store : Store) (resp : HttpResponse) :
    VsportsAPI.events_by_date c start_date none none none kw store resp
      = VsportsAPI.req c "events" "GET"
          (some [("start_date", .str start_date), ("end_date", .str start_date)])
          kw store resp := rfl

/-- C9: an omitted or non-boolean `usecache` keyword is treated as false:
the dispatch equals the network path with caching off, the store is
untouched (no cache store), no cache lookup outcome can influence it, and
exactly one HTTP request is made. -/
theorem C9_nonbool_usecache_off (c : Client) (endpoint method : String)
    (params : Option (List (String × Json))) (kw : Option Json)
    (store : Store) (resp : HttpResponse)
    (h : ∀ b : Bool, kw ≠ some (.bool b)) :
    VsportsAPI.req c endpoint method params kw store resp
        = VsportsAPI.httpPhase c endpoint method params false store resp
    ∧ (VsportsAPI.req c endpoint method params kw store resp).store = store
    ∧ (VsportsAPI.req c endpoint method params kw store resp).calls
        = [{ method := method, url := c.base_url ++ "/" ++ endpoint,
             headers := c.headers, params := params, timeout := c.timeout }] := by
  have husecache :
      (match (kw.getD (.bool false) : Json) with
        | .bool b => b
        | _ => false) = false := by
    cases kw with
    | none => rfl
    | some j =>
        cases j with
        | bool b => exact absurd rfl (h b)
        | null => rfl
        | num n => rfl
        | str s => rfl
        | arr xs => rfl
        | obj fs => rfl
  have hreq : VsportsAPI.req c endpoint method params kw store resp
      = VsportsAPI.httpPhase c endpoint method params false store resp := by
    simp only [VsportsAPI.req, husecache, Bool.false_and, Bool.false_eq_true,
      if_false]
  refine ⟨hreq, ?_, ?_⟩ <;> rw [hreq] <;>
    simp only [VsportsAPI.httpPhase, Bool.false_and, Bool.false_eq_true,
      if_false] <;> split <;> (try split) <;> rfl

/-- Witness for C9 at the truthy non-boolean `usecache=1`: no cache store
and exactly one HTTP request, though a live cache connection exists. -/
theorem C9_nonbool_usecache_off_witness :
    (∀ b : Bool, (some (Json.num 1) : Option Json) ≠ some (.bool b))
    ∧ (VsportsAPI.req sampleClient "tournaments" "GET" none (some (.num 1)) []
          ⟨200, .arr []⟩
        = VsportsAPI.httpPhase sampleClient "tournaments" "GET" none false []
            ⟨200, .arr []⟩
      ∧ (VsportsAPI.req sampleClient "tournaments" "GET" none (some (.num 1)) []
          ⟨200, .arr []⟩).store = []
      ∧ (VsportsAPI.req sampleClient "tournaments" "GET" none (some (.num 1)) []
          ⟨200, .arr []⟩).calls
        = [{ method := "GET",
             url := "https://extended.vsports.pt/api" ++ "/" ++ "tournaments",
             headers := [("Authorization", "Bearer k")],
             params := none, timeout := 10 }]) :=
  ⟨fun _ hb => Json.noConfusion (Option.some.inj hb),
    C9_nonbool_usecache_off sampleClient "tournaments" "GET" none
      (some (.num 1)) [] ⟨200, .arr []⟩
      (fun _ hb => Json.noConfusion (Option.some.inj hb))⟩

/-- C10: the dispatcher never mutates the client: after any dispatch the
client — credential token, base address, timeout, authorization headers,
cache connection and cache TTL — is exactly the one it started with. -/
theorem C10_config_immutable (c : Client) (endpoint method : String)
    (params : Option (List (String × Json))) (kw : Option Json)
    (store : Store) (resp : HttpResponse) :
    (VsportsAPI.req c endpoint method params kw store resp).client = c := by
  simp only [VsportsAPI.req, VsportsAPI.httpPhase]
  split
  · split
    · rfl
    · split
      · rfl
      · split
        · rfl
        · split
          · rfl
          · rfl
  · split
    · rfl
    · split
      · rfl
      · rfl

end Vsports
